import Mathlib

/-
  Verification of the record transformation and export/import engine of the
  surrealdb_json_cli repository (src/main.rs) against its specification.

  Shallow embedding conventions:
  - serde_json Value is embedded as the inductive `Json`; numbers are embedded
    as integers (the integer cases of serde_json Number, which are the only
    number shapes the specified properties quantify over).
  - File system and Database Service calls are embedded as explicit data:
    a file is a record of its path attributes plus the parse result of its
    text content; the database is a record of total functions giving, per
    table, the keyed rows, the select failure flag, the statement errors of
    an insert and the table-info response.
  - Fallible Rust functions returning anyhow Result are embedded with
    `RResult`, which also has a `panicked` constructor for the places where
    the source can abort (unwrap on None, assert, todo).
-/

/-- Embedded serde_json value. Objects and maps keep their entry order as the
    sequence in which the entries were produced. -/
inductive Json where
  | null
  | bool (b : Bool)
  | num (n : Int)
  | str (s : String)
  | arr (elems : List Json)
  | obj (fields : List (String × Json))

/-- Embeds serde_json Value.get on a string key: a key lookup on an object,
    none on every other value. -/
def Json.get (j : Json) (key : String) : Option Json :=
  match j with
  | .obj fields => fields.lookup key
  | _ => none

/-- Replace the value at the first occurrence of a key, leaving every other
    entry unchanged (the effect of writing through Value.get_mut). -/
def setKey (key : String) (nv : Json) : List (String × Json) → List (String × Json)
  | [] => []
  | (k, v) :: rest => if k = key then (k, nv) :: rest else (k, v) :: setKey key nv rest

/-- Outcome of a fallible Rust computation: an anyhow error is `err`, a
    process abort (failed unwrap, failed assert, todo) is `panicked`. -/
inductive RResult (α : Type) where
  | ok (a : α)
  | err (msg : String)
  | panicked (msg : String)
deriving DecidableEq, Repr

/-- True exactly on the `err` outcome. -/
def RResult.isErr {α : Type} : RResult α → Bool
  | .err _ => true
  | _ => false

/-- True exactly on the `ok` outcome. -/
def RResult.isOk {α : Type} : RResult α → Bool
  | .ok _ => true
  | _ => false

/-- The two file formats of the FileFormat enum. -/
inductive FileFormat where
  | json
  | csv
deriving DecidableEq, Repr

/-- Embeds the FromStr and TryFrom conversions of FileFormat: only the two
    known extensions map to a format, anything else is an error. -/
def formatTryFrom (ext : String) : RResult FileFormat :=
  if ext = "json" then .ok .json
  else if ext = "csv" then .ok .csv
  else .err (ext ++ " is an invalid file format")

/-- An input file: the path attributes the source reads through PathBuf
    (display name, is_file, extension, file_stem) plus the parse result of
    the file text, where `none` embeds malformed JSON. -/
structure FileIn where
  name : String
  isFile : Bool
  extension : Option String
  stem : Option String
  content : Option Json

/-- Embeds the all-extensions-equal loop of file_format: for each path in
    order, unwrap its extension (panicking on None as unwrap does) and stop
    on the first mismatch. -/
def allExtEq (ext : String) : List FileIn → RResult Bool
  | [] => .ok true
  | p :: ps =>
    match p.extension with
    | none => .panicked "called unwrap on a None value"
    | some e => if e = ext then allExtEq ext ps else .ok false

/-- Embeds file_format: every path must be a regular file, the first path
    must have an extension, every path must have that same extension, and
    the extension must map to a known format. An empty list panics on the
    first().unwrap() of the source. -/
def file_format (files : List FileIn) : RResult FileFormat :=
  match files.find? (fun p => !p.isFile) with
  | some p => .err ("error: " ++ p.name ++ " is not a file")
  | none =>
    match files with
    | [] => .panicked "called unwrap on a None value"
    | f :: rest =>
      match f.extension with
      | none => .err "Error: no file extention was found"
      | some ext =>
        match allExtEq ext (f :: rest) with
        | .ok true => formatTryFrom ext
        | .ok false => .err "error: not all files are the same type"
        | .err m => .err m
        | .panicked m => .panicked m

/-- Embeds the record normalization inside generate_insert: a JSON array
    root contributes its elements as records, any other root is wrapped as a
    one-element sequence (the unwrap_or fallback of the source). -/
def recordsOfJson : Json → List Json
  | .arr xs => xs
  | v => [v]

/-- The insert statement generate_insert builds for a table. -/
def insertStatement (table : String) : String :=
  "INSERT INTO " ++ table ++ " $records"

/-- Stands for the parser message of the propagated serde_json error on a
    malformed file: the source forwards the error of from_str bare through
    the question-mark operator with no added context, so the message
    depends only on the malformed text (which the content embedding
    collapses) and names no attribute of the file, in particular not its
    path. -/
def serdeParseMessage : String := "expected value at line 1 column 1"

/-- Embeds generate_insert: a file whose text does not parse propagates the
    bare serde parse error (no path attached), a file without a stem is a
    stem error, otherwise the result is the insert statement for the
    stem-named table together with the record list. -/
def generate_insert (f : FileIn) : RResult (String × List Json) :=
  match f.content with
  | none => .err serdeParseMessage
  | some j =>
    match f.stem with
    | none => .err "failed to parse stem"
    | some table => .ok (insertStatement table, recordsOfJson j)

/-- The Database Service insert interface: given the insert statement and
    the bound records, the service answers with the list of statement-level
    error messages of the response. -/
def InsertDb : Type := String → List Json → List String

/-- The insert a file gives rise to when it loads: statement plus records. -/
def fileInsert (f : FileIn) : Option (String × List Json) :=
  match f.content, f.stem with
  | some v, some s => some (insertStatement s, recordsOfJson v)
  | _, _ => none

/-- Embeds import_json: run generate_insert, submit the insert to the
    service, then assert that the response carries no statement errors (the
    assert! of the source panics when it does). The first component records
    whether the insert was submitted. -/
def import_json (db : InsertDb) (f : FileIn) : Option (String × List Json) × RResult Unit :=
  match generate_insert f with
  | .err e => (none, .err e)
  | .panicked m => (none, .panicked m)
  | .ok (query, records) =>
    (some (query, records),
      match db query records with
      | [] => .ok ()
      | _ :: _ => .panicked "assertion failed: take_errors is empty")

/-- Embeds the sequential file loop of the JSON arm of the import command:
    each file is handled by import_json and the question-mark operator stops
    the loop at the first failure. The first component is the trace of
    submitted inserts in order. -/
def importFiles (db : InsertDb) : List FileIn → List (String × List Json) × RResult Unit
  | [] => ([], .ok ())
  | f :: rest =>
    match import_json db f with
    | (att, .ok _) =>
      let tr := importFiles db rest
      (att.toList ++ tr.1, tr.2)
    | (att, .err e) => (att.toList, .err e)
    | (att, .panicked m) => (att.toList, .panicked m)

/-- Embeds the import command after the connection step: resolve the shared
    file format, then run the sequential JSON loop; the CSV arm is the todo
    of the source and panics. -/
def importRun (db : InsertDb) (files : List FileIn) : List (String × List Json) × RResult Unit :=
  match file_format files with
  | .ok .json => importFiles db files
  | .ok .csv => ([], .panicked "not yet implemented")
  | .err e => ([], .err e)
  | .panicked m => ([], .panicked m)

/-- A file is good for a service when its content parses, its stem exists
    and the service reports no statement errors for its insert. -/
def goodFile (db : InsertDb) (f : FileIn) : Prop :=
  ∃ v s, f.content = some v ∧ f.stem = some s ∧ db (insertStatement s) (recordsOfJson v) = []

/-- The key component of a native record identifier: the five cases of the
    surrealdb Id enum. Composite Array and Object keys keep their parsed
    member values, a Generate key keeps its generator tag. -/
inductive RecId where
  | num (n : Int)
  | str (s : String)
  | arr (elems : List Json)
  | obj (fields : List (String × Json))
  | gen (g : String)

/-- A native composite record identifier of the Database Service: a table
    name together with a key. -/
structure Thing where
  tb : String
  id : RecId

/-- Whether a character is ascii alphanumeric or an underscore, the byte
    test of the SDK sql escape module. -/
def simpleIdentChar (c : Char) : Bool :=
  (48 ≤ c.toNat && c.toNat ≤ 57) || (65 ≤ c.toNat && c.toNat ≤ 90) ||
    (97 ≤ c.toNat && c.toNat ≤ 122) || c.toNat == 95

/-- Whether a character is an ascii digit. -/
def asciiDigit (c : Char) : Bool :=
  48 ≤ c.toNat && c.toNat ≤ 57

/-- Embeds escape_rid of the SDK sql escape module, applied by the Display
    of a string key: a string that contains a character outside ascii
    alphanumerics and underscore, or consists of digits only (the empty
    string included), is wrapped in mathematical angle brackets with every
    closing bracket escaped; every other string renders verbatim. -/
def escape_rid (s : String) : String :=
  if s.data.all simpleIdentChar && !(s.data.all asciiDigit) then s
  else "⟨" ++ String.join (s.data.map (fun c =>
    if c = '⟩' then "\\⟩" else String.singleton c)) ++ "⟩"

/-- Embeds escape_key of the SDK sql escape module, applied to object keys
    inside composite key displays: keys containing a character outside
    ascii alphanumerics and underscore are double quoted with quotes
    escaped. -/
def escape_key (s : String) : String :=
  if s.data.all simpleIdentChar then s
  else "\"" ++ String.join (s.data.map (fun c =>
    if c = '"' then "\\\"" else String.singleton c)) ++ "\""

/-- A single quote character, written by code point. -/
def squote : String := String.singleton (Char.ofNat 39)

/-- The single quoted strand rendering of the SDK, with backslashes and
    single quotes escaped. Modelled at the Database Service boundary: this
    rendering lives in the SDK, outside src, and no claim inspects it. -/
def sqlStrand (s : String) : String :=
  squote ++ String.join (s.data.map (fun c =>
    if c = Char.ofNat 39 then "\\" ++ squote
    else if c = Char.ofNat 92 then "\\\\"
    else String.singleton c)) ++ squote

mutual

/-- The SurrealQL display of a parsed member value of a composite key, as
    the SDK renders it: null renders as NULL, booleans and numbers render
    canonically, strings render as single quoted strands, arrays bracket
    the comma separated members, objects brace the key: value pairs.
    Modelled at the Database Service boundary: this rendering lives in the
    SDK, outside src, and no claim inspects it. -/
def sqlDisplay : Json → String
  | .null => "NULL"
  | .bool b => if b then "true" else "false"
  | .num n => toString n
  | .str s => sqlStrand s
  | .arr xs => "[" ++ sqlDisplayList xs ++ "]"
  | .obj fields => "\x7b " ++ sqlDisplayObj fields ++ " \x7d"

/-- Comma separated SurrealQL display of array members. -/
def sqlDisplayList : List Json → String
  | [] => ""
  | [x] => sqlDisplay x
  | x :: xs => sqlDisplay x ++ ", " ++ sqlDisplayList xs

/-- Comma separated SurrealQL display of object entries. -/
def sqlDisplayObj : List (String × Json) → String
  | [] => ""
  | [(k, v)] => escape_key k ++ ": " ++ sqlDisplay v
  | (k, v) :: rest => escape_key k ++ ": " ++ sqlDisplay v ++ ", " ++ sqlDisplayObj rest

end

/-- The display rendering of a key, following the Display instance of the
    surrealdb Id enum: an integer key renders as its decimal text, a string
    key renders through escape_rid, composite keys render through the
    SurrealQL display of their members, and a generated key renders as its
    generator call. Only the integer case decides a claim; the others are
    carried for faithfulness of the recognized shapes. -/
def RecId.fmt : RecId → String
  | .num n => toString n
  | .str s => escape_rid s
  | .arr xs => "[" ++ sqlDisplayList xs ++ "]"
  | .obj fields => "\x7b " ++ sqlDisplayObj fields ++ " \x7d"
  | .gen g => if g = "Rand" then "rand()" else if g = "Ulid" then "ulid()" else "uuid()"

/-- The serde representation of a key: an externally tagged one-entry
    object. -/
def idToJson : RecId → Json
  | .num n => .obj [("Number", .num n)]
  | .str s => .obj [("String", .str s)]
  | .arr xs => .obj [("Array", .arr xs)]
  | .obj fields => .obj [("Object", .obj fields)]
  | .gen g => .obj [("Generate", .str g)]

/-- Recognize the serde representation of a key: exactly one entry whose
    tag and payload match a variant of the surrealdb Id enum, including the
    composite Array and Object keys and the three Generate generators that
    the derived Thing deserialization accepts. The Array and Object
    payloads keep their parsed member values. -/
def idFromJson : Json → Option RecId
  | .obj [("Number", .num n)] => some (.num n)
  | .obj [("String", .str s)] => some (.str s)
  | .obj [("Array", .arr xs)] => some (.arr xs)
  | .obj [("Object", .obj fields)] => some (.obj fields)
  | .obj [("Generate", .str g)] =>
    if g = "Rand" then some (.gen "Rand")
    else if g = "Ulid" then some (.gen "Ulid")
    else if g = "Uuid" then some (.gen "Uuid")
    else none
  | _ => none

/-- The serde representation of a native identifier: an object with the
    table under tb and the tagged key under id. -/
def thingToJson (t : Thing) : Json :=
  .obj [("tb", .str t.tb), ("id", idToJson t.id)]

/-- Recognize the serde representation of a native identifier: a value with
    a string tb field and a recognizable id field (unknown extra fields are
    ignored, as derived serde deserialization ignores them). -/
def thingFromJson (j : Json) : Option Thing :=
  match j.get "tb", j.get "id" with
  | some (.str tb), some idj => (idFromJson idj).map (fun i => Thing.mk tb i)
  | _, _ => none

/-- Modelled from the spec: the import/verification direction of the
    IdentifierNormalizer, absent from src, reconstructs the native
    identifier shape (table, key) from a table name and a raw integer
    key. -/
def denormalize (table : String) (k : Int) : Json :=
  thingToJson (Thing.mk table (RecId.num k))

/-- Embeds convert_id: look up the id field (None when the record is not an
    object or has no id entry), try to read it as a native identifier (None
    when the shape is not recognized, leaving the record untouched), and
    otherwise overwrite the id field with the display rendering of the key.
    The pair carries the return value and the record after the call. -/
def convert_id (record : Json) : Option Json × Json :=
  match record with
  | .obj fields =>
    match fields.lookup "id" with
    | none => (none, record)
    | some idv =>
      match thingFromJson idv with
      | none => (none, record)
      | some t =>
        let r := Json.obj (setKey "id" (.str t.id.fmt) fields)
        (some r, r)
  | _ => (none, record)

/-- The record mapping of select_table: whatever convert_id returns, the
    possibly rewritten record is kept. -/
def normalizeRecord (record : Json) : Json :=
  (convert_id record).2

/-- The Database Service as the export path sees it: keyed rows per table, a
    per-table select failure flag, and the table-info value the INFO FOR
    TABLE query returns (none when the response holds no info). -/
structure Db where
  tables : String → List (Int × Json)
  selectFails : String → Bool
  info : String → Option Json

/-- The select call of the Database Service with an id range: the rows of
    the table whose keys fall in the half-open window, or the select
    failure. -/
def dbSelect (db : Db) (table : String) (lo hi : Int) : RResult (List Json) :=
  if db.selectFails table then .err ("select failed: " ++ table)
  else .ok (((db.tables table).filter (fun kr => decide (lo ≤ kr.1 ∧ kr.1 < hi))).map Prod.snd)

/-- Embeds select_table: select the table over the constant range 1..2 and
    map every row through convert_id, keeping rows the conversion does not
    touch. -/
def select_table (db : Db) (table : String) : RResult (List Json) :=
  match dbSelect db table 1 2 with
  | .ok rows => .ok (rows.map normalizeRecord)
  | .err e => .err e
  | .panicked m => .panicked m

/-- Embeds the mutable indexing table["fields"] followed by take: on an
    object the entry of the key (null when absent), on null the key is
    freshly inserted as null, on every other value the IndexMut instance of
    serde_json panics. -/
def jsonIndexTake (j : Json) (key : String) : RResult Json :=
  match j with
  | .obj fields =>
    .ok (match fields.lookup key with
      | some v => v
      | none => .null)
  | .null => .ok .null
  | _ => .panicked "cannot access key in a non-object value"

/-- Embeds from_value into a serde_json Map: succeeds exactly on objects and
    returns the entry sequence. -/
def fromValueMap : Json → Option (List (String × Json))
  | .obj fields => some fields
  | _ => none

/-- Embeds extract_fields applied to the take result of the INFO FOR TABLE
    response: a missing response is a context error, otherwise the fields
    entry is read as a map and its keys are returned in order. -/
def extract_fields (info : Option Json) : RResult (List String) :=
  match info with
  | none => .err "failed to return table info"
  | some t =>
    match jsonIndexTake t "fields" with
    | .ok fv =>
      match fromValueMap fv with
      | some fields => .ok (fields.map Prod.fst)
      | none => .err "invalid type for the fields entry"
    | .err m => .err m
    | .panicked m => .panicked m

/-- Hexadecimal digit of a value below sixteen. -/
def hexDigit (n : Nat) : Char :=
  if n < 10 then Char.ofNat (48 + n) else Char.ofNat (87 + n)

/-- The escaping of one character inside a compact JSON string, following
    the serde_json writer: quote, backslash and the named control characters
    get two-character escapes, other control characters get a four-digit
    unicode escape, everything else is verbatim. -/
def escapeJsonChar (c : Char) : String :=
  if c = '"' then "\\\""
  else if c = '\\' then "\\\\"
  else if c = Char.ofNat 8 then "\\b"
  else if c = Char.ofNat 12 then "\\f"
  else if c = '\n' then "\\n"
  else if c = '\r' then "\\r"
  else if c = '\t' then "\\t"
  else if c.toNat < 32 then
    "\\u00" ++ String.singleton (hexDigit (c.toNat / 16)) ++ String.singleton (hexDigit (c.toNat % 16))
  else String.singleton c

/-- A compact JSON string literal with its quotes. -/
def jsonStringLit (s : String) : String :=
  "\"" ++ String.join (s.data.map escapeJsonChar) ++ "\""

mutual

/-- Embeds serde_json to_string: the compact single-line rendering of a
    value. -/
def Json.toCompact : Json → String
  | .null => "null"
  | .bool b => if b then "true" else "false"
  | .num n => toString n
  | .str s => jsonStringLit s
  | .arr xs => "[" ++ listToCompact xs ++ "]"
  | .obj fields => "\x7b" ++ objToCompact fields ++ "\x7d"

/-- Comma-separated compact rendering of array elements. -/
def listToCompact : List Json → String
  | [] => ""
  | [x] => x.toCompact
  | x :: xs => x.toCompact ++ "," ++ listToCompact xs

/-- Comma-separated compact rendering of object entries. -/
def objToCompact : List (String × Json) → String
  | [] => ""
  | [(k, v)] => jsonStringLit k ++ ":" ++ v.toCompact
  | (k, v) :: rest => jsonStringLit k ++ ":" ++ v.toCompact ++ "," ++ objToCompact rest

end

/-- Embeds value_to_string: the cell text of one present value, dispatched
    by kind. -/
def value_to_string : Json → String
  | .null => "NULL"
  | .bool b => if b then "true" else "false"
  | .num n => toString n
  | .str s => s
  | .arr xs => Json.toCompact (.arr xs)
  | .obj fields => Json.toCompact (.obj fields)

/-- Embeds records_to_csv: one row per record, one cell per field in the
    fixed field order, a present value through value_to_string and an absent
    field as the NULL sentinel. -/
def records_to_csv (fields : List String) (records : List Json) : List (List String) :=
  records.map (fun rec =>
    fields.map (fun field =>
      match rec.get field with
      | some val => value_to_string val
      | none => "NULL"))

/-- The content of one produced output file: the record list a pretty
    printed JSON export serializes, or the header and rows a CSV export
    writes (the byte-level text rendering is abstracted at the file
    boundary). -/
inductive FileContent where
  | jsonRecords (records : List Json)
  | csvTable (header : List String) (rows : List (List String))

/-- One produced output file. -/
structure FileOut where
  name : String
  content : FileContent

/-- Embeds export_table_as_json as one task: select the table, and on
    success write the pretty printed records to the table-named json file.
    The first component is the file the task produced, if any. -/
def export_table_as_json (db : Db) (table : String) : Option FileOut × RResult Unit :=
  match select_table db table with
  | .ok records => (some ⟨table ++ ".json", .jsonRecords records⟩, .ok ())
  | .err e => (none, .err e)
  | .panicked m => (none, .panicked m)

/-- Embeds export_table_as_csv as one task: select the table, extract the
    declared fields, project the records onto the fields and write header
    plus rows to the table-named csv file. -/
def export_table_as_csv (db : Db) (table : String) : Option FileOut × RResult Unit :=
  match select_table db table with
  | .err e => (none, .err e)
  | .panicked m => (none, .panicked m)
  | .ok records =>
    match extract_fields (db.info table) with
    | .err e => (none, .err e)
    | .panicked m => (none, .panicked m)
    | .ok fields =>
      (some ⟨table ++ ".csv", .csvTable fields (records_to_csv fields records)⟩, .ok ())

/-- The outcome of every spawned export task, one per requested table, in
    request order. -/
def exportTasks (db : Db) (format : FileFormat) (tables : List String) :
    List (String × (Option FileOut × RResult Unit)) :=
  tables.map (fun t =>
    (t, match format with
      | .json => export_table_as_json db t
      | .csv => export_table_as_csv db t))

/-- Embeds the export command after the connection step: spawn one task per
    table, join every task while discarding each join result (the join loop
    of the source matches Some(_) and drops the value), and return ok. The
    first component is the set of files the tasks produced. -/
def exportRun (db : Db) (format : FileFormat) (tables : List String) :
    List FileOut × RResult Unit :=
  ((exportTasks db format tables).filterMap (fun r => r.2.1), .ok ())

/-- A scalar JSON value: neither an array nor an object. -/
def Json.isScalar : Json → Bool
  | .arr _ => false
  | .obj _ => false
  | _ => true

/-- Cell stringification as the specification words it: an absent field and
    a null value give the NULL sentinel, a boolean gives true or false, a
    number gives its decimal text, a string is verbatim, an array or object
    gives its compact JSON text. -/
def specCell (rec : Json) (field : String) : String :=
  match rec.get field with
  | none => "NULL"
  | some .null => "NULL"
  | some (.bool b) => if b then "true" else "false"
  | some (.num n) => toString n
  | some (.str s) => s
  | some (.arr xs) => Json.toCompact (.arr xs)
  | some (.obj fs) => Json.toCompact (.obj fs)

theorem value_to_string_cases (rec : Json) (field : String) :
    (match rec.get field with
      | some val => value_to_string val
      | none => "NULL") = specCell rec field := by
  cases h : rec.get field with
  | none => simp [specCell, h]
  | some v => cases v <;> simp [specCell, h, value_to_string]

/-- Claim C1: IdentifierNormalizer round-trip: normalizing the record whose id
    field is the native identifier reconstructed from a table name and an
    integer key succeeds and yields the decimal string rendering of the key
    in place of the identifier. -/
theorem identifier_round_trip (T : String) (k : Int) :
    convert_id (Json.obj [("id", denormalize T k)]) =
      (some (Json.obj [("id", .str (toString k))]), Json.obj [("id", .str (toString k))]) :=
  rfl

/-- Claim C4: TabularSerializer reference behavior: every emitted row has exactly
    one cell per field in field order, each cell is the by-kind
    stringification of a present value and the NULL sentinel for an absent
    field, and with an empty field list every record serializes to a
    zero-column row. -/
theorem tabular_serializer_rows :
    (∀ (fields : List String) (records : List Json),
      records_to_csv fields records = records.map (fun rec => fields.map (specCell rec)))
    ∧ (∀ records : List Json, records_to_csv [] records = records.map (fun _ => [])) := by
  constructor
  · intro fields records
    unfold records_to_csv
    refine List.map_congr_left (fun rec _ => ?_)
    exact List.map_congr_left (fun field _ => value_to_string_cases rec field)
  · intro records
    simp [records_to_csv]

/-- Claim C5: RecordLoader cardinality and order: a file whose content parses as
    an array yields exactly its elements in file order, and a file whose
    content parses as a single object yields exactly that object wrapped in
    a one-element sequence. -/
theorem record_loader_counts (f : FileIn) (s : String) (hs : f.stem = some s) :
    (∀ vs, f.content = some (.arr vs) → generate_insert f = .ok (insertStatement s, vs))
    ∧ (∀ o, f.content = some (.obj o) →
        generate_insert f = .ok (insertStatement s, [.obj o])) := by
  constructor
  · intro vs hc
    simp [generate_insert, hc, hs, recordsOfJson]
  · intro o hc
    simp [generate_insert, hc, hs, recordsOfJson]

theorem record_loader_counts_witness :
    generate_insert ⟨"p.json", true, some "json", some "p",
        some (.arr [.obj [("a", .num 1)], .obj [("a", .num 2)]])⟩ =
      .ok (insertStatement "p", [.obj [("a", .num 1)], .obj [("a", .num 2)]])
    ∧ generate_insert ⟨"q.json", true, some "json", some "q", some (.obj [("a", .num 1)])⟩ =
      .ok (insertStatement "q", [.obj [("a", .num 1)]]) :=
  ⟨(record_loader_counts _ "p" rfl).1 _ rfl, (record_loader_counts _ "q" rfl).2 _ rfl⟩

/-- A file whose content is the scalar JSON root 5. -/
def scalarFile : FileIn := ⟨"b.json", true, some "json", some "b", some (.num 5)⟩

/-- Claim C6 counterexample: a file whose content parses to a scalar root value
    does not fail: generate_insert accepts it and wraps it as a one-element
    record sequence, so no ParseError is produced; and on two malformed
    files with different paths the produced error is the very same value,
    so the parse error of a malformed file names no path either. -/
theorem scalar_root_not_rejected :
    generate_insert scalarFile = .ok (insertStatement "b", [.num 5])
    ∧ (generate_insert scalarFile).isErr = false
    ∧ generate_insert ⟨"b.json", true, some "json", some "b", none⟩ =
        generate_insert ⟨"elsewhere/other.json", true, some "json", some "other", none⟩ :=
  ⟨rfl, rfl, rfl⟩

/-- Claim C6 amended: a file whose content is malformed JSON fails with the
    propagated serde parse error, a message that does not name the path of
    the file, while a file whose content parses to a scalar root value is
    accepted and wrapped as a one-element record sequence. -/
theorem record_loader_root_handling (f : FileIn) :
    (f.content = none → generate_insert f = .err serdeParseMessage)
    ∧ (∀ v s, f.content = some v → v.isScalar = true → f.stem = some s →
        generate_insert f = .ok (insertStatement s, [v])) := by
  constructor
  · intro hc
    simp [generate_insert, hc]
  · intro v s hc hscalar hs
    cases v <;> simp_all [generate_insert, recordsOfJson, Json.isScalar]

theorem record_loader_root_handling_witness :
    generate_insert ⟨"m.json", true, some "json", some "m", none⟩ =
      .err serdeParseMessage
    ∧ generate_insert scalarFile = .ok (insertStatement "b", [.num 5]) :=
  ⟨(record_loader_root_handling _).1 rfl,
   (record_loader_root_handling scalarFile).2 (.num 5) "b" rfl rfl rfl⟩

theorem lookup_setKey_ne (k key : String) (h : k ≠ key) (nv : Json) :
    ∀ l : List (String × Json), List.lookup k (setKey key nv l) = List.lookup k l
  | [] => rfl
  | (a, b) :: rest => by
    by_cases ha : a = key
    · subst ha
      have hk : (k == a) = false := by simpa using h
      simp [setKey, List.lookup, hk]
    · have hne : ¬ (a = key) := ha
      simp only [setKey, if_neg hne, List.lookup]
      cases hke : k == a
      · simp [lookup_setKey_ne k key h nv rest]
      · rfl

/-- Claim C9: IdentifierNormalizer frame property: when the id field is absent or
    its value is not a recognized native identifier shape, convert_id
    returns None and leaves the record untouched, and in every case each
    field other than id reads the same after normalization as before. -/
theorem convert_id_frame (r : Json) :
    ((r.get "id" = none ∨ ∃ v, r.get "id" = some v ∧ thingFromJson v = none) →
      convert_id r = (none, r))
    ∧ (∀ k, k ≠ "id" → (normalizeRecord r).get k = r.get k) := by
  constructor
  · intro hr
    cases r with
    | obj fields =>
      cases hl : fields.lookup "id" with
      | none => simp [convert_id, hl]
      | some idv =>
        rcases hr with hnone | ⟨v, hv, hthing⟩
        · rw [Json.get] at hnone
          simp [hl] at hnone
        · rw [Json.get] at hv
          rw [hl] at hv
          cases hv
          simp [convert_id, hl, hthing]
    | null => rfl
    | bool b => rfl
    | num n => rfl
    | str s => rfl
    | arr xs => rfl
  · intro k hk
    cases r with
    | obj fields =>
      cases hl : fields.lookup "id" with
      | none => simp [normalizeRecord, convert_id, hl]
      | some idv =>
        cases ht : thingFromJson idv with
        | none => simp [normalizeRecord, convert_id, hl, ht]
        | some t =>
          simp only [normalizeRecord, convert_id, hl, ht, Json.get]
          exact lookup_setKey_ne k "id" hk _ fields
    | null => rfl
    | bool b => rfl
    | num n => rfl
    | str s => rfl
    | arr xs => rfl

theorem convert_id_frame_witness :
    convert_id (Json.obj [("a", .num 1)]) = (none, Json.obj [("a", .num 1)])
    ∧ (normalizeRecord (Json.obj [("a", .num 1)])).get "a" =
        (Json.obj [("a", .num 1)]).get "a" :=
  ⟨(convert_id_frame _).1 (Or.inl rfl), (convert_id_frame _).2 "a" (by decide)⟩

theorem allExtEq_all (e : String) :
    ∀ l : List FileIn, (∀ p ∈ l, p.extension = some e) → allExtEq e l = .ok true
  | [], _ => rfl
  | p :: ps, h => by
    have hp := h p (List.mem_cons_self p ps)
    simp only [allExtEq, hp, if_pos rfl]
    exact allExtEq_all e ps (fun q hq => h q (List.mem_cons_of_mem p hq))

theorem allExtEq_bool (e : String) :
    ∀ l : List FileIn, (∀ p ∈ l, p.extension ≠ none) →
      allExtEq e l = .ok true ∨ allExtEq e l = .ok false
  | [], _ => Or.inl rfl
  | p :: ps, h => by
    cases hp : p.extension with
    | none => exact absurd hp (h p (List.mem_cons_self p ps))
    | some e0 =>
      by_cases he : e0 = e
      · subst he
        simp only [allExtEq, hp, if_pos rfl]
        exact allExtEq_bool e0 ps (fun q hq => h q (List.mem_cons_of_mem p hq))
      · simp [allExtEq, hp, he]

theorem allExtEq_true_all (e : String) :
    ∀ l : List FileIn, allExtEq e l = .ok true → ∀ p ∈ l, p.extension = some e
  | [], _, p, hp => absurd hp (List.not_mem_nil p)
  | q :: ps, h, p, hp => by
    cases hq : q.extension with
    | none => simp [allExtEq, hq] at h
    | some e0 =>
      by_cases he : e0 = e
      · subst he
        simp only [allExtEq, hq, if_pos rfl] at h
        rcases List.mem_cons.mp hp with hpq | hpm
        · subst hpq; exact hq
        · exact allExtEq_true_all e0 ps h p hpm
      · simp [allExtEq, hq, he] at h

theorem file_format_all_ext (files : List FileIn) (e : String) (hne : files ≠ [])
    (hfile : ∀ p ∈ files, p.isFile = true) (hext : ∀ p ∈ files, p.extension = some e) :
    file_format files = formatTryFrom e := by
  have hfind : files.find? (fun p => !p.isFile) = none :=
    List.find?_eq_none.mpr (fun p hp => by simp [hfile p hp])
  obtain ⟨f, rest, rfl⟩ := List.exists_cons_of_ne_nil hne
  have hf : f.extension = some e := hext f (List.mem_cons_self f rest)
  have hall : allExtEq e (f :: rest) = .ok true := allExtEq_all e (f :: rest) hext
  simp [file_format, hfind, hf, hall]

/-- A list of three regular files in which the first has the json extension,
    the second has no extension at all, and the third has the txt
    extension. -/
def mixedNoExt : List FileIn :=
  [⟨"x.json", true, some "json", some "x", none⟩,
   ⟨"y", true, none, some "y", none⟩,
   ⟨"z.txt", true, some "txt", some "z", none⟩]

/-- Claim C7 counterexample: a list of existing regular files that contains two
    paths with differing extensions, on which file_format panics on an
    unwrap of a missing extension instead of failing with a
    ValidationError. -/
theorem format_resolver_panic_on_missing_extension :
    (∀ p ∈ mixedNoExt, p.isFile = true)
    ∧ (∃ p ∈ mixedNoExt, ∃ q ∈ mixedNoExt,
        p.extension = some "json" ∧ q.extension = some "txt")
    ∧ file_format mixedNoExt = .panicked "called unwrap on a None value"
    ∧ (file_format mixedNoExt).isErr = false := by
  refine ⟨by decide, ?_, by decide, by decide⟩
  exact ⟨⟨"x.json", true, some "json", some "x", none⟩, List.mem_cons_self _ _,
    ⟨"z.txt", true, some "txt", some "z", none⟩,
    List.mem_cons_of_mem _ (List.mem_cons_of_mem _ (List.mem_cons_self _ _)), rfl, rfl⟩

/-- Claim C7 amended: for a non-empty list of existing regular files that all
    carry one extension, file_format returns exactly the conversion of that
    extension, hence the format tag when the extension is known and a
    ValidationError when it is not; a list containing a non-file path fails
    with a ValidationError; and a list of files in which every path has an
    extension but two extensions differ fails with a ValidationError. A
    non-first file lacking an extension altogether makes the resolver panic
    on an unwrap instead, as the counterexample shows. -/
theorem format_resolver_contract (files : List FileIn) :
    (∀ e, files ≠ [] → (∀ p ∈ files, p.isFile = true) →
      (∀ p ∈ files, p.extension = some e) → file_format files = formatTryFrom e)
    ∧ ((∃ p ∈ files, p.isFile = false) → (file_format files).isErr = true)
    ∧ ((∀ p ∈ files, p.isFile = true) → (∀ p ∈ files, p.extension ≠ none) →
      (∃ p ∈ files, ∃ q ∈ files, p.extension ≠ q.extension) →
      (file_format files).isErr = true)
    ∧ (∀ e, files ≠ [] → (∀ p ∈ files, p.isFile = true) →
      (∀ p ∈ files, p.extension = some e) → e ≠ "json" → e ≠ "csv" →
      (file_format files).isErr = true) := by
  refine ⟨fun e hne hfile hext => file_format_all_ext files e hne hfile hext, ?_, ?_, ?_⟩
  · rintro ⟨p, hp, hpf⟩
    have hsome : (files.find? (fun p => !p.isFile)).isSome := by
      rw [List.find?_isSome]
      exact ⟨p, hp, by simp [hpf]⟩
    cases hfind : files.find? (fun p => !p.isFile) with
    | none => rw [hfind] at hsome; simp at hsome
    | some q => simp [file_format, hfind, RResult.isErr]
  · intro hfile hext hdiff
    have hfind : files.find? (fun p => !p.isFile) = none :=
      List.find?_eq_none.mpr (fun p hp => by simp [hfile p hp])
    obtain ⟨p, hp, q, hq, hpq⟩ := hdiff
    have hne : files ≠ [] := by
      intro hnil
      rw [hnil] at hp
      exact List.not_mem_nil p hp
    obtain ⟨f, rest, rfl⟩ := List.exists_cons_of_ne_nil hne
    cases hf : f.extension with
    | none => exact absurd hf (hext f (List.mem_cons_self f rest))
    | some e0 =>
      rcases allExtEq_bool e0 (f :: rest) hext with htrue | hfalse
      · have hall := allExtEq_true_all e0 (f :: rest) htrue
        exact absurd ((hall p hp).trans (hall q hq).symm) hpq
      · simp [file_format, hfind, hf, hfalse, RResult.isErr]
  · intro e hne hfile hext hj hc
    rw [file_format_all_ext files e hne hfile hext]
    simp [formatTryFrom, hj, hc, RResult.isErr]

theorem format_resolver_contract_witness :
    file_format [⟨"a.json", true, some "json", some "a", none⟩] = formatTryFrom "json"
    ∧ (file_format [⟨"a.json", false, some "json", some "a", none⟩]).isErr = true
    ∧ (file_format [⟨"a.json", true, some "json", some "a", none⟩,
        ⟨"b.txt", true, some "txt", some "b", none⟩]).isErr = true
    ∧ (file_format [⟨"a.xml", true, some "xml", some "a", none⟩]).isErr = true := by
  refine ⟨?_, ?_, ?_, ?_⟩
  · exact (format_resolver_contract _).1 "json" (by simp) (by decide) (by decide)
  · exact (format_resolver_contract _).2.1
      ⟨⟨"a.json", false, some "json", some "a", none⟩, List.mem_cons_self _ _, rfl⟩
  · refine (format_resolver_contract _).2.2.1 (by decide) (by decide) ?_
    exact ⟨⟨"a.json", true, some "json", some "a", none⟩, List.mem_cons_self _ _,
      ⟨"b.txt", true, some "txt", some "b", none⟩,
      List.mem_cons_of_mem _ (List.mem_cons_self _ _), by decide⟩
  · exact (format_resolver_contract _).2.2.2 "xml" (by simp) (by decide) (by decide)
      (by decide) (by decide)

/-- Claim C8: SchemaInspector empty-schema tolerance: whenever the Database
    Service answers the table-info query with an info object whose declared
    fields map is empty, extract_fields returns the empty field list rather
    than failing. -/
theorem schema_inspector_empty (db : Db) (table : String)
    (entries : List (String × Json))
    (hinfo : db.info table = some (.obj entries))
    (hfields : entries.lookup "fields" = some (.obj [])) :
    extract_fields (db.info table) = .ok [] := by
  rw [hinfo]
  simp [extract_fields, jsonIndexTake, hfields, fromValueMap]

/-- A database whose table-info response declares no fields for any
    table. -/
def dbEmptyInfo : Db :=
  ⟨fun _ => [], fun _ => false,
   fun _ => some (.obj [("events", .obj []), ("fields", .obj []), ("indexes", .obj [])])⟩

theorem schema_inspector_empty_witness :
    extract_fields (dbEmptyInfo.info "person") = .ok [] :=
  schema_inspector_empty dbEmptyInfo "person" _ rfl rfl

/-- Claim C10: implicit export-window invariant: whenever select_table succeeds,
    the rows it returns are exactly the table rows whose keys fall in the
    constant half-open window from 1 to 2, mapped through the identifier
    normalization, so every exported record stems from a record whose key
    lies in that fixed window. -/
theorem export_window (db : Db) (table : String) (rows : List Json)
    (h : select_table db table = .ok rows) :
    rows = ((db.tables table).filter (fun kr => decide (1 ≤ kr.1 ∧ kr.1 < 2))).map
        (fun kr => normalizeRecord kr.2)
    ∧ ∀ r ∈ rows, ∃ k rec, (k, rec) ∈ db.tables table ∧ 1 ≤ k ∧ k < 2
        ∧ r = normalizeRecord rec := by
  unfold select_table dbSelect at h
  by_cases hfail : db.selectFails table
  · simp [hfail] at h
  · simp only [hfail, Bool.false_eq_true, if_neg, ite_false] at h
    cases h
    constructor
    · rw [List.map_map]
      rfl
    · intro r hr
      rw [List.map_map, List.mem_map] at hr
      obtain ⟨kr, hkr, hrec⟩ := hr
      rw [List.mem_filter] at hkr
      obtain ⟨hmem, hwin⟩ := hkr
      have hw : 1 ≤ kr.1 ∧ kr.1 < 2 := of_decide_eq_true hwin
      exact ⟨kr.1, kr.2, by simpa using hmem, hw.1, hw.2, hrec.symm⟩

/-- A database holding three keyed rows for every table, only one of which
    has its key in the export window. -/
def dbThreeRows : Db :=
  ⟨fun _ => [(0, .null), (1, .obj [("n", .num 7)]), (5, .null)], fun _ => false, fun _ => none⟩

theorem export_window_witness :
    [Json.obj [("n", .num 7)]] =
      ((dbThreeRows.tables "t").filter (fun kr => decide (1 ≤ kr.1 ∧ kr.1 < 2))).map
        (fun kr => normalizeRecord kr.2)
    ∧ ∀ r ∈ [Json.obj [("n", .num 7)]], ∃ k rec, (k, rec) ∈ dbThreeRows.tables "t"
        ∧ 1 ≤ k ∧ k < 2 ∧ r = normalizeRecord rec :=
  export_window dbThreeRows "t" _ rfl

/-- A database where the select of table t1 fails and table t2 holds one
    record inside the export window. -/
def dbHalf : Db :=
  ⟨fun t => if t = "t2" then [(1, Json.obj [("name", .str "Al")])] else [],
   fun t => t == "t1",
   fun _ => none⟩

/-- Claim C2: the export engine run on tables t1 and t2, where fetching t1 fails
    and t2 succeeds, still produces the output file of t2 and finishes only
    after both tasks ran; but the join loop discards every task outcome, so
    the engine returns a plain ok that carries no trace of the one failure
    of t1, even though the t1 task did fail. -/
theorem export_failure_dropped :
    exportRun dbHalf .json ["t1", "t2"] =
      ([⟨"t2.json", .jsonRecords [Json.obj [("name", .str "Al")]]⟩], .ok ())
    ∧ (export_table_as_json dbHalf "t1").2 = .err "select failed: t1"
    ∧ (export_table_as_json dbHalf "t1").1 = none
    ∧ (export_table_as_json dbHalf "t2").2 = .ok () :=
  ⟨rfl, rfl, rfl, rfl⟩

theorem importFiles_append_good (db : InsertDb) :
    ∀ (pre rest : List FileIn), (∀ g ∈ pre, goodFile db g) →
      importFiles db (pre ++ rest) =
        (pre.filterMap fileInsert ++ (importFiles db rest).1, (importFiles db rest).2)
  | [], rest, _ => by simp [List.filterMap_nil]
  | g :: pre, rest, h => by
    obtain ⟨v, s, hc, hs, hdb⟩ := h g (List.mem_cons_self g pre)
    have ih := importFiles_append_good db pre rest
      (fun q hq => h q (List.mem_cons_of_mem g hq))
    simp only [List.cons_append, importFiles, import_json, generate_insert, hc, hs, hdb,
      List.filterMap_cons, fileInsert, Option.toList_some, List.append_eq, ih]
    simp

/-- A database that reports one statement error for the insert into table s
    and no error for any other insert. -/
def dbStmtErr : InsertDb :=
  fun q _ => if q = insertStatement "s" then ["there was a problem with a statement"] else []

/-- The first import file: table s, one record, triggering a statement
    error. -/
def fileS : FileIn := ⟨"s.json", true, some "json", some "s", some (.arr [.obj [("x", .num 1)]])⟩

/-- The second import file: table a, one record, perfectly importable. -/
def fileA : FileIn := ⟨"a.json", true, some "json", some "a", some (.arr [.obj [("y", .num 2)]])⟩

/-- Claim C3 counterexample: on the files for tables s and a, where the service
    reports a statement error for s and none for a, the import panics on the
    assert (no ImportError identifying the file is produced), and the
    remaining file a is never processed: no insert for a appears in the
    trace, so per-file outcomes are not reported individually. -/
theorem import_abort_on_first_failure :
    importRun dbStmtErr [fileS, fileA] =
      ([(insertStatement "s", [.obj [("x", .num 1)]])],
        .panicked "assertion failed: take_errors is empty")
    ∧ (importRun dbStmtErr [fileS, fileA]).2.isErr = false
    ∧ insertStatement "a" ∉ (importRun dbStmtErr [fileS, fileA]).1.map Prod.fst :=
  ⟨rfl, rfl, by decide⟩

/-- Claim C3 amended: the import processes files sequentially and stops at the
    first failing file: every earlier file has its records inserted, a file
    whose content fails to load stops the import with the propagated serde
    parse error (a message that identifies no file), a statement-level
    error reported by the Database Service stops the import with an
    assertion panic right after that insert, and the files after the
    failing one are never processed; in particular for a valid a.json
    followed by a malformed b.json, the records of a are inserted, the run
    then fails with the parse error of b, and no insert is attempted
    for b. -/
theorem import_sequential_abort (db : InsertDb) (pre post : List FileIn) (f : FileIn)
    (hfmt : ∀ g ∈ pre ++ f :: post, g.isFile = true ∧ g.extension = some "json")
    (hpre : ∀ g ∈ pre, goodFile db g) :
    (f.content = none →
      importRun db (pre ++ f :: post) =
        (pre.filterMap fileInsert, .err serdeParseMessage))
    ∧ (∀ v s, f.content = some v → f.stem = some s →
        db (insertStatement s) (recordsOfJson v) ≠ [] →
        importRun db (pre ++ f :: post) =
          (pre.filterMap fileInsert ++ [(insertStatement s, recordsOfJson v)],
            .panicked "assertion failed: take_errors is empty")) := by
  have hne : pre ++ f :: post ≠ [] := by simp
  have hff : file_format (pre ++ f :: post) = formatTryFrom "json" :=
    file_format_all_ext _ "json" hne (fun g hg => (hfmt g hg).1) (fun g hg => (hfmt g hg).2)
  have happ := importFiles_append_good db pre (f :: post) hpre
  have hjson : formatTryFrom "json" = .ok .json := rfl
  constructor
  · intro hc
    have hloop : importFiles db (f :: post) =
        ([], .err serdeParseMessage) := by
      simp [importFiles, import_json, generate_insert, hc]
    rw [importRun, hff, hjson]
    show importFiles db (pre ++ f :: post) = _
    rw [happ, hloop]
    simp
  · intro v s hc hs hdb
    obtain ⟨e0, es, herr⟩ := List.exists_cons_of_ne_nil hdb
    have hloop : importFiles db (f :: post) =
        ([(insertStatement s, recordsOfJson v)],
          .panicked "assertion failed: take_errors is empty") := by
      simp [importFiles, import_json, generate_insert, hc, hs, herr]
    rw [importRun, hff, hjson]
    show importFiles db (pre ++ f :: post) = _
    rw [happ, hloop]

/-- A database service that reports no statement errors at all. -/
def dbNoErr : InsertDb := fun _ _ => []

/-- A valid import file for table a with one record. -/
def fileAl : FileIn := ⟨"a.json", true, some "json", some "a", some (.arr [.obj [("name", .str "Al")]])⟩

/-- A malformed import file for table b. -/
def fileBad : FileIn := ⟨"b.json", true, some "json", some "b", none⟩

theorem import_sequential_abort_witness :
    importRun dbNoErr [fileAl, fileBad] =
      ([(insertStatement "a", [Json.obj [("name", .str "Al")]])],
        .err serdeParseMessage) :=
  (import_sequential_abort dbNoErr [fileAl] [] fileBad (by decide)
    (by
      intro g hg
      rw [List.mem_singleton] at hg
      subst hg
      exact ⟨_, "a", rfl, rfl, rfl⟩)).1 rfl
